import Mathlib

/-!
Verification of the FailingApp DLL export header
(src/Exceptions/.NET/FailingApp/FailingApp.h).

The header consists of a preprocessor conditional selecting between
`__declspec(dllexport)` and `__declspec(dllimport)` for the token
FAILINGAPP_API, depending on whether the build flag FAILINGAPP_EXPORTS is
defined, followed by three declarations that all carry FAILINGAPP_API:
an empty placeholder class CFailingApp with a declared default constructor,
an extern global `int nFailingApp`, and a prototype `int fnFailingApp(void)`.

The embedding has two layers: a structural layer describing the
declarations exactly as they appear in the header, and a small dynamic
layer for the runtime-facing claims (the definitions of the constructor,
the global and the function live in the DLL's .cpp translation unit, which
is not part of src/, so that layer is modelled from the spec).
-/

namespace FailingApp

/-- The two linkage attributes the preprocessor conditional can select:
`__declspec(dllexport)` when FAILINGAPP_EXPORTS is defined, else
`__declspec(dllimport)`. -/
inductive LinkageMode where
  | dllexport
  | dllimport

/-- The preprocessor conditional of FailingApp.h lines 7-11: given whether
the build flag FAILINGAPP_EXPORTS is defined, FAILINGAPP_API resolves to
the export attribute or to the import attribute. -/
def FAILINGAPP_API (failingappExports : Bool) : LinkageMode :=
  if failingappExports then LinkageMode.dllexport else LinkageMode.dllimport

/-- The C++ types that occur in the header's declarations. -/
inductive CppType where
  | intType
  | voidType

/-- A constructor declaration inside a class body: its parameter list and
whether a body is provided in the header. -/
structure CtorDecl where
  params : List CppType
  hasBody : Bool

/-- A class declaration: its name, the linkage attribute it carries as a
function of the build flag, its declared constructors and its data
members. -/
structure ClassDecl where
  name : String
  linkage : Bool → LinkageMode
  ctors : List CtorDecl
  dataMembers : List (String × CppType)

/-- A namespace-scope variable declaration: its name, linkage, type,
whether it is declared with external storage (an `extern` declaration) and
whether the declaration carries an initializer (making it a definition). -/
structure VarDecl where
  name : String
  linkage : Bool → LinkageMode
  type : CppType
  isExternalDecl : Bool
  isConst : Bool
  hasInitializer : Bool

/-- A namespace-scope function declaration: its name, linkage, parameter
list, return type and whether a body is provided. -/
structure FunDecl where
  name : String
  linkage : Bool → LinkageMode
  params : List CppType
  ret : CppType
  hasBody : Bool

/-- One declaration of the header. -/
inductive HeaderDecl where
  | classD : ClassDecl → HeaderDecl
  | varD : VarDecl → HeaderDecl
  | funD : FunDecl → HeaderDecl

/-- FailingApp.h lines 14-18: `class FAILINGAPP_API CFailingApp` with the
single declared default constructor `CFailingApp(void);` (no body) and no
data members. -/
def CFailingAppDecl : ClassDecl :=
  { name := "CFailingApp"
    linkage := FAILINGAPP_API
    ctors := [{ params := [], hasBody := false }]
    dataMembers := [] }

/-- FailingApp.h line 20: `extern FAILINGAPP_API int nFailingApp;` — an
extern declaration of a non-const int, with no initializer. -/
def nFailingAppDecl : VarDecl :=
  { name := "nFailingApp"
    linkage := FAILINGAPP_API
    type := CppType.intType
    isExternalDecl := true
    isConst := false
    hasInitializer := false }

/-- FailingApp.h line 22: `FAILINGAPP_API int fnFailingApp(void);` — a
prototype with an empty parameter list, int return type and no body. -/
def fnFailingAppDecl : FunDecl :=
  { name := "fnFailingApp"
    linkage := FAILINGAPP_API
    params := []
    ret := CppType.intType
    hasBody := false }

/-- The header's declarations, in source order. -/
def FailingApp_h : List HeaderDecl :=
  [HeaderDecl.classD CFailingAppDecl,
   HeaderDecl.varD nFailingAppDecl,
   HeaderDecl.funD fnFailingAppDecl]

/-- Whether a header declaration declares a data object (a variable). -/
def HeaderDecl.isDataObject : HeaderDecl → Bool
  | .varD _ => true
  | _ => false

/-- Whether a header declaration defines storage: a variable declaration
does so only when it is not an extern declaration or carries an
initializer. -/
def HeaderDecl.definesStorage : HeaderDecl → Bool
  | .varD v => !v.isExternalDecl || v.hasInitializer
  | _ => false

/-- Whether a header declaration provides any function or constructor
body. -/
def HeaderDecl.hasAnyBody : HeaderDecl → Bool
  | .classD c => c.ctors.any (fun c => c.hasBody)
  | .funD f => f.hasBody
  | .varD _ => false

/-- The observable runtime state of the loaded module: the single exported
global integer. -/
structure ModuleState where
  nFailingApp : Int

/-- Modelled from the spec: the defining translation unit for `nFailingApp`
(the DLL's .cpp file) is not under src/. The spec says the global has
static storage, is created at module load, and its pre-write initial value
is the deterministic zero of static storage. -/
def moduleLoad : ModuleState := { nFailingApp := 0 }

/-- The placeholder exported type: an empty structure mirroring the class
CFailingApp, which has no data members. -/
structure CFailingApp where

/-- Modelled from the spec: the body of `CFailingApp::CFailingApp(void)` is
not under src/ (the header only declares it). The spec says construction
succeeds, yields a default-initialized instance and has no side effects, so
the constructor returns the (unique) instance and leaves the module state
unchanged. -/
def constructCFailingApp (s : ModuleState) : CFailingApp × ModuleState :=
  (CFailingApp.mk, s)

/-- The operations a consumer can perform through the header's interface. -/
inductive ModuleOp where
  | construct
  | callFn
  | readGlobal
  | writeGlobal (v : Int)

/-- Whether an operation writes the exported global. -/
def ModuleOp.isWrite : ModuleOp → Bool
  | .writeGlobal _ => true
  | _ => false

/-- Modelled from the spec: the body of `fnFailingApp` is not under src/;
the spec gives no contract beyond the call completing and returning some
integer, so the semantics is parameterized over an arbitrary total
implementation `impl`. Each operation yields the next module state and the
integer result, if any. -/
def step (impl : ModuleState → Int) (s : ModuleState) :
    ModuleOp → ModuleState × Option Int
  | .construct => ((constructCFailingApp s).2, none)
  | .callFn => (s, some (impl s))
  | .readGlobal => (s, some s.nFailingApp)
  | .writeGlobal v => ({ nFailingApp := v }, none)

/-- Run a sequence of interface operations from a state. -/
def run (impl : ModuleState → Int) (s : ModuleState) :
    List ModuleOp → ModuleState
  | [] => s
  | op :: ops => run impl (step impl s op).1 ops

/-- A compiled artifact: the linkage mode fixed at build time by the
preprocessor conditional, together with the runtime module state. -/
structure CompiledArtifact where
  linkage : LinkageMode
  state : ModuleState

/-- Running an interface operation on a compiled artifact: only the runtime
state evolves; the linkage mode was resolved by the preprocessor and no
operation of the unit touches it. -/
def stepArtifact (impl : ModuleState → Int) (a : CompiledArtifact)
    (op : ModuleOp) : CompiledArtifact :=
  { linkage := a.linkage, state := (step impl a.state op).1 }

/-- Processing (including) a list of header declarations: a declaration
that defines storage for the global zero-initializes it; a pure
declaration changes nothing. -/
def includeHeader (s : ModuleState) (decls : List HeaderDecl) : ModuleState :=
  decls.foldl
    (fun st d => if d.definesStorage then { nFailingApp := 0 } else st) s

theorem run_no_write_const (impl : ModuleState → Int) :
    ∀ (ops : List ModuleOp) (s : ModuleState),
      (∀ op ∈ ops, op.isWrite = false) →
      (run impl s ops).nFailingApp = s.nFailingApp := by
  intro ops
  induction ops with
  | nil => intro s _; rfl
  | cons op rest ih =>
    intro s h
    have hop : op.isWrite = false := h op (List.mem_cons_self op rest)
    have hrest : ∀ o ∈ rest, o.isWrite = false :=
      fun o ho => h o (List.mem_cons_of_mem op ho)
    cases op with
    | construct => simpa [run, step, constructCFailingApp] using ih s hrest
    | callFn => simpa [run, step] using ih s hrest
    | readGlobal => simpa [run, step] using ih s hrest
    | writeGlobal v => simp [ModuleOp.isWrite] at hop

/-- Claim C1: the linkage-mode selector is a total function of the single
build-time flag FAILINGAPP_EXPORTS: with the flag defined FAILINGAPP_API
resolves to the export attribute, with it undefined to the import
attribute, and there is no third outcome. -/
theorem linkage_selector_total :
    FAILINGAPP_API true = LinkageMode.dllexport ∧
    FAILINGAPP_API false = LinkageMode.dllimport ∧
    ∀ flagDefined : Bool,
      FAILINGAPP_API flagDefined = LinkageMode.dllexport ∨
      FAILINGAPP_API flagDefined = LinkageMode.dllimport := by
  refine ⟨rfl, rfl, ?_⟩
  intro b
  cases b
  · exact Or.inr rfl
  · exact Or.inl rfl

/-- Claim C2: for every value of the build flag, all three declarations of
the header (the class CFailingApp, the global nFailingApp and the function
fnFailingApp) carry the same single linkage token FAILINGAPP_API, so no
symbol can end up with a linkage mode different from the others. -/
theorem linkage_uniform :
    ∀ flagDefined : Bool,
      CFailingAppDecl.linkage flagDefined = FAILINGAPP_API flagDefined ∧
      nFailingAppDecl.linkage flagDefined = FAILINGAPP_API flagDefined ∧
      fnFailingAppDecl.linkage flagDefined = FAILINGAPP_API flagDefined ∧
      CFailingAppDecl.linkage flagDefined = nFailingAppDecl.linkage flagDefined ∧
      nFailingAppDecl.linkage flagDefined = fnFailingAppDecl.linkage flagDefined :=
  fun _ => ⟨rfl, rfl, rfl, rfl, rfl⟩

/-- Claim C3: for every fresh module load, any sequence of interface
operations that contains no write to the exported global leaves its value
at the deterministic initial value of static storage, zero, so the first
read with no prior write returns that fixed value. -/
theorem nFailingApp_initial_read (impl : ModuleState → Int)
    (ops : List ModuleOp) (hnw : ∀ op ∈ ops, op.isWrite = false) :
    (run impl moduleLoad ops).nFailingApp = 0 :=
  run_no_write_const impl ops moduleLoad hnw

theorem nFailingApp_initial_read_witness :
    (run (fun _ => 7) moduleLoad
      [ModuleOp.construct, ModuleOp.callFn, ModuleOp.readGlobal]).nFailingApp
      = 0 :=
  nFailingApp_initial_read (fun _ => 7)
    [ModuleOp.construct, ModuleOp.callFn, ModuleOp.readGlobal]
    (by intro op hop; fin_cases hop <;> rfl)

/-- Claim C4: every call to the placeholder function fnFailingApp
completes and returns some integer: for every implementation and every
state, the call step produces an integer result. -/
theorem fnFailingApp_call_completes :
    ∀ (impl : ModuleState → Int) (s : ModuleState),
      ∃ n : Int, (step impl s ModuleOp.callFn).2 = some n :=
  fun impl s => ⟨impl s, rfl⟩

/-- Claim C5: default-construction of CFailingApp succeeds, produces the
default-initialized instance (which is the unique instance of the empty
type), and has no side effects: the module state, including the exported
global nFailingApp, is unchanged. -/
theorem construct_no_side_effects :
    ∀ s : ModuleState,
      (constructCFailingApp s).2 = s ∧
      (constructCFailingApp s).2.nFailingApp = s.nFailingApp ∧
      (constructCFailingApp s).1 = CFailingApp.mk ∧
      ∀ x y : CFailingApp, x = y :=
  fun _ => ⟨rfl, rfl, rfl, fun x y => by cases x; cases y; rfl⟩

/-- Claim C6: the declaration of CFailingApp is an empty structure: it
declares exactly one constructor, that constructor is the default
constructor (empty parameter list), and it has no data members. -/
theorem CFailingApp_empty_structure :
    CFailingAppDecl.ctors = [{ params := [], hasBody := false }] ∧
    CFailingAppDecl.ctors.length = 1 ∧
    CFailingAppDecl.dataMembers = [] :=
  ⟨rfl, rfl, rfl⟩

/-- Claim C7: the declared signature of fnFailingApp has an empty
parameter list and integer return type. -/
theorem fnFailingApp_signature :
    fnFailingAppDecl.params = [] ∧ fnFailingAppDecl.ret = CppType.intType :=
  ⟨rfl, rfl⟩

/-- Claim C8: nFailingApp is the only data object declared in the header's
interface, and it is a mutable (non-const) integer variable, declared
extern so that consumer modules address it by name across the library
boundary. -/
theorem nFailingApp_only_data_object :
    FailingApp_h.filter HeaderDecl.isDataObject
      = [HeaderDecl.varD nFailingAppDecl] ∧
    nFailingAppDecl.type = CppType.intType ∧
    nFailingAppDecl.isConst = false ∧
    nFailingAppDecl.isExternalDecl = true ∧
    nFailingAppDecl.name = "nFailingApp" :=
  ⟨rfl, rfl, rfl, rfl, rfl⟩

/-- Claim C9: the linkage-mode selector has no error path — for every value
of the build flag the selection yields one of the two modes — and no state
transition: no interface operation of the unit changes the linkage mode
fixed in the compiled artifact. -/
theorem linkage_fixed_no_error :
    (∀ flagDefined : Bool,
       FAILINGAPP_API flagDefined = LinkageMode.dllexport ∨
       FAILINGAPP_API flagDefined = LinkageMode.dllimport) ∧
    (∀ (impl : ModuleState → Int) (a : CompiledArtifact) (op : ModuleOp),
       (stepArtifact impl a op).linkage = a.linkage) := by
  constructor
  · intro b
    cases b
    · exact Or.inr rfl
    · exact Or.inl rfl
  · intro impl a op
    rfl

/-- Claim C10: the header contains declarations only: no declaration
defines storage or provides a body — the global is an extern declaration
with no initializer, the constructor and the function are declared without
bodies — and therefore processing (including) the header changes no module
state. -/
theorem header_declarations_only :
    (FailingApp_h.all fun d => !d.definesStorage && !d.hasAnyBody) = true ∧
    nFailingAppDecl.isExternalDecl = true ∧
    nFailingAppDecl.hasInitializer = false ∧
    (CFailingAppDecl.ctors.all fun c => !c.hasBody) = true ∧
    fnFailingAppDecl.hasBody = false ∧
    ∀ s : ModuleState, includeHeader s FailingApp_h = s :=
  ⟨rfl, rfl, rfl, rfl, rfl, fun _ => rfl⟩

end FailingApp
